import Mathlib

/-!
Verification of the session bootstrap logic of the Leaf ui-client
(`src/ui-client/src/actions/session.ts`), shallowly embedded in Lean.

The embedding models:
- `getResponderIdentities`: the federation fan-out that aggregates partner
  responder identities around the home identity.  The concurrent completion
  of the per-node fetches is modelled by an explicit `completionOrder` list
  of configuration indices (the order in which the per-node promises settle
  and their `then` handlers run); the per-node network call
  `fetchResponderIdentity` is modelled as a function from the (already
  normalized) descriptor to `Except`.
- `attestAndLoadSession`: the staged bootstrap pipeline, modelled as the
  list of redux dispatches it emits.  Awaited calls are the points where a
  failure can occur, so the try-block is a list of dispatch segments
  separated by awaits; `failAt = some p` means the `p`-th awaited call
  rejects.
- `handleSessionReload`: the session continuity check, modelled as the
  confirmation-modal dispatch it produces (if any).
- `logout`: the logout flow, modelled as the list of externally visible
  steps it performs.
-/

/-- A configured partner descriptor (`NetworkIdentityResponseDTO` in the
source): the fields of the DTO that `getResponderIdentities` reads, namely
its configured `id` and its `address`. -/
structure NetworkIdentityResponseDTO where
  id : Nat
  address : String
deriving DecidableEq, Repr

/-- A node identity (`NetworkIdentity` in the source): the fields that the
session code reads or writes.  `name` stands for the display metadata that
is carried through the object spread unchanged. -/
structure NetworkIdentity where
  name : String
  address : String
  enabled : Bool
  id : Nat
  isHomeNode : Bool
deriving DecidableEq, Repr

/-- Embedding of the JS check `address.endsWith("/")` for the single
character `/`: the last element of the character sequence is a slash. -/
def endsWithSlash (s : String) : Bool :=
  s.data.getLast? = some '/'

/-- Embedding of `address.substring(0, address.length-1)`: drop the final
character of the sequence. -/
def dropLastChar (s : String) : String :=
  String.mk s.data.dropLast

/-- Source, lines 162-164: strip one trailing slash from an address if
present, leave the address unchanged otherwise. -/
def stripTrailingSlash (s : String) : String :=
  if endsWithSlash s then dropLastChar s else s

/-- The in-place mutation of the descriptor performed by the fan-out body
before the fetch is issued (source, lines 162-164). -/
def normalizeDTO (nr : NetworkIdentityResponseDTO) : NetworkIdentityResponseDTO :=
  if endsWithSlash nr.address then { nr with address := dropLastChar nr.address } else nr

/-- The entry pushed onto the result array when the fetch for the node at
configuration index `i` succeeds (source, line 169):
`responders.push({ ...response.data, address: nr.address, enabled: true,
id: (id + 1), isHomeNode: false })`, where `id` is the `.map` callback
index, i.e. the configuration index, and `nr` is the normalized
descriptor. -/
def pushEntry (fetch : NetworkIdentityResponseDTO → Except String NetworkIdentity)
    (normalized : List NetworkIdentityResponseDTO) (i : Nat) : Option NetworkIdentity :=
  match normalized[i]? with
  | some nr =>
    match fetch nr with
    | Except.ok d =>
      some { d with address := nr.address, enabled := true, id := i + 1, isHomeNode := false }
    | Except.error _ => none
  | none => none

/-- The error-side-channel call made when the fetch for the node at
configuration index `i` fails (source, line 170):
`errorResponder(nr.id, error)`, keyed by the configured id of the
descriptor. -/
def errEntry (fetch : NetworkIdentityResponseDTO → Except String NetworkIdentity)
    (normalized : List NetworkIdentityResponseDTO) (i : Nat) : Option (Nat × String) :=
  match normalized[i]? with
  | some nr =>
    match fetch nr with
    | Except.ok _ => none
    | Except.error e => some (nr.id, e)
  | none => none

/-- Whether the fetch for configuration index `i` succeeds. -/
def resolveOk (fetch : NetworkIdentityResponseDTO → Except String NetworkIdentity)
    (normalized : List NetworkIdentityResponseDTO) (i : Nat) : Bool :=
  match normalized[i]? with
  | some nr =>
    match fetch nr with
    | Except.ok _ => true
    | Except.error _ => false
  | none => false

/-- Number of configured nodes, among the settled fan-out tasks, whose
resolution succeeded. -/
def successCount (fetch : NetworkIdentityResponseDTO → Except String NetworkIdentity)
    (normalized : List NetworkIdentityResponseDTO) (order : List Nat) : Nat :=
  (order.filter (resolveOk fetch normalized)).length

/-- The outcome of the fan-out: the returned responder array together with
the sequence of `errorResponder` side-channel calls. -/
structure FanoutResult where
  responders : List NetworkIdentity
  errors : List (Nat × String)
deriving DecidableEq, Repr

/-- Shallow embedding of `getResponderIdentities` (source, lines 152-176).

Inputs flattened from the source signature: `isIdentified` is
`attestation.isIdentified`, `isFederatedOkay` is
`getState().auth.userContext!.isFederatedOkay`, `homeIdentity` is
`homebase.identity`, `respondersCfg` is `homebase.responders`, `fetch`
models `fetchResponderIdentity` applied to the current state and the
(normalized) descriptor, and `completionOrder` is the order in which the
per-node promises settle (a permutation of the configuration indices in
any real run, since `Promise.all` waits for every task).

The result array starts as `[homebase.identity]`; each settled task, in
completion order, either pushes its success entry or makes its
error-side-channel call. -/
def getResponderIdentities (isIdentified : Bool) (isFederatedOkay : Bool)
    (homeIdentity : NetworkIdentity) (respondersCfg : List NetworkIdentityResponseDTO)
    (fetch : NetworkIdentityResponseDTO → Except String NetworkIdentity)
    (completionOrder : List Nat) : FanoutResult :=
  if !isIdentified && !respondersCfg.isEmpty && isFederatedOkay then
    let normalized := respondersCfg.map normalizeDTO
    { responders := homeIdentity :: completionOrder.filterMap (pushEntry fetch normalized),
      errors := completionOrder.filterMap (errEntry fetch normalized) }
  else
    { responders := [homeIdentity], errors := [] }

/-- Example home identity used by concrete instantiations. -/
def homeEx : NetworkIdentity :=
  { name := "home", address := "https://home", enabled := true, id := 0, isHomeNode := true }

/-- Example two-node partner configuration. -/
def cfgEx : List NetworkIdentityResponseDTO := [⟨10, "https://a"⟩, ⟨20, "https://b"⟩]

/-- Example fetch that succeeds on every node. -/
def fetchOkEx : NetworkIdentityResponseDTO → Except String NetworkIdentity :=
  fun nr => Except.ok
    { name := "node" ++ nr.address, address := "", enabled := false, id := 99,
      isHomeNode := true }

/-- Example fetch that fails for the node with configured id 10 and succeeds
otherwise. -/
def fetchMixEx : NetworkIdentityResponseDTO → Except String NetworkIdentity :=
  fun nr =>
    if nr.id = 10 then Except.error "timeout"
    else Except.ok
      { name := "node" ++ nr.address, address := "", enabled := false, id := 99,
        isHomeNode := true }

/-- The concrete responder entry produced for configured index 1 of
`cfgEx` under `fetchOkEx`. -/
def respEntryEx : NetworkIdentity :=
  { name := "nodehttps://b", address := "https://b", enabled := true, id := 2,
    isHomeNode := false }

/-- A previous-session snapshot, as read by `handleSessionReload`:
`timestamp` in seconds, the current query (`prev.queries.current`), the
panel set and the panel-filter states.  The three payloads are opaque to
the session code and are modelled as strings. -/
structure PreviousSession where
  timestamp : Int
  queriesCurrent : String
  panels : String
  panelFilters : String
deriving DecidableEq, Repr

/-- A dispatch performed by a confirmation-modal callback. -/
inductive ReloadDispatch where
  | setCurrentQuery (q : String)
  | setPanels (p : String)
  | setPanelFilterActiveStates (f : String)
deriving DecidableEq, Repr

/-- The `ConfirmationModalState` built by `handleSessionReload` (source,
lines 300-308).  The callbacks are modelled by the dispatch lists they
perform when clicked; `visible` embeds the source field `show`. -/
structure ConfirmationModalState where
  body : String
  header : String
  onClickNo : List ReloadDispatch
  onClickYes : List ReloadDispatch
  visible : Bool
  noButtonText : String
  yesButtonText : String
deriving DecidableEq, Repr

/-- Source, line 288:
`Math.floor(((new Date().getTime() / 1000) - prev.timestamp) / 60)` with
the current time in milliseconds and the snapshot timestamp in seconds;
over exact arithmetic this is the floor of `(nowMs - 1000 * ts) / 60000`,
i.e. floor division on integers. -/
def elapsedMinutes (nowMs ts : Int) : Int :=
  Int.fdiv (nowMs - 1000 * ts) 60000

/-- Source, lines 289-292: the human display string for the elapsed whole
minutes. -/
def diffDisplay (m : Int) : String :=
  if m = 0 then "less than a minute ago"
  else if m = 1 then "about 1 minute ago"
  else "about " ++ toString m ++ " minutes ago"

/-- Shallow embedding of `handleSessionReload` (source, lines 285-312):
given the current clock (milliseconds) and the result of
`getPrevSession`, returns the confirmation modal dispatched through
`showConfirmationModal`, or `none` when nothing is dispatched. -/
def handleSessionReload (nowMs : Int) (prev : Option PreviousSession) :
    Option ConfirmationModalState :=
  match prev with
  | none => none
  | some p =>
    let diffMinutes := elapsedMinutes nowMs p.timestamp
    if diffMinutes < 60 * 8 then
      some { body := "Do you want to resume your previous session (saved "
               ++ diffDisplay diffMinutes ++ ")?",
             header := "Continue previous session",
             onClickNo := [],
             onClickYes := [ReloadDispatch.setCurrentQuery p.queriesCurrent,
               ReloadDispatch.setPanels p.panels,
               ReloadDispatch.setPanelFilterActiveStates p.panelFilters],
             visible := true,
             noButtonText := "No, I\x27ll start fresh",
             yesButtonText := "Yes, load my previous query" }
    else none

/-- A redux dispatch made by `attestAndLoadSession`.  Payloads that no
claim depends on are omitted; the load-state dispatch keeps its display
label and progress percent, the attestation-error dispatch keeps its
flag, and the confirmation modal keeps its full state. -/
inductive SessionAction where
  | setSessionLoadState (display : String) (percent : Nat)
  | submitAttestation
  | setSessionContext
  | setUserInquiryState
  | setAdminNetworkIdentity
  | setResponders
  | registerNetworkCohorts
  | setExportOptions
  | setImportOptions
  | setDatasets
  | addSavedQueries
  | setExtensionRootConcepts
  | completeAttestation
  | errorAttestation (error : Bool)
  | showConfirmationModal (modal : ConfirmationModalState)
deriving DecidableEq, Repr

/-- The generic operator-contact message of the catch block (source,
line 145). -/
def uhOhMessage : String :=
  "Uh oh. Something went wrong while loading Leaf information from the server. Please contact your Leaf administrator."

/-- The dispatches of the try block of `attestAndLoadSession` (source,
lines 58-142), split into the segments that lie between consecutive
awaited calls: segment `k` is emitted before the `k`-th await, and the
final segment after the last await.  The eleven awaits are, in order:
`getSessionTokenAndContext`, `fetchHomeIdentityAndResponders`,
`getResponderIdentities`, `getExportOptions`, `getImportOptions`,
`requestRootConcepts`, `fetchAvailableDatasets`, `indexDatasets`,
`getSavedQueries`, `getExtensionRootConcepts`,
`initializeSearchEngine`. -/
def attestSegments (isAdmin : Bool) (nowMs : Int) (prev : Option PreviousSession) :
    List (List SessionAction) :=
  [ [SessionAction.setSessionLoadState "Submitting Attestation" 5,
      SessionAction.submitAttestation],
    [SessionAction.setSessionContext, SessionAction.setUserInquiryState,
      SessionAction.setSessionLoadState "Finding Home Leaf server" 10],
    (if isAdmin then [SessionAction.setAdminNetworkIdentity] else []) ++
      [SessionAction.setSessionLoadState "Finding Partner Leaf servers" 20],
    [SessionAction.setResponders, SessionAction.registerNetworkCohorts,
      SessionAction.setSessionLoadState "Loading Export options" 30],
    [SessionAction.setExportOptions,
      SessionAction.setSessionLoadState "Loading Import options" 40],
    [SessionAction.setImportOptions, SessionAction.setSessionLoadState "Loading Concepts" 50],
    [SessionAction.setSessionLoadState "Loading Patient List Datasets" 60],
    [],
    [SessionAction.setDatasets, SessionAction.setSessionLoadState "Loading Saved Queries" 70],
    [SessionAction.addSavedQueries,
      SessionAction.setSessionLoadState "Loading Extension Concepts" 80],
    [SessionAction.setExtensionRootConcepts,
      SessionAction.setSessionLoadState "Initializing Search Engine" 100],
    SessionAction.completeAttestation ::
      (match handleSessionReload nowMs prev with
       | some m => [SessionAction.showConfirmationModal m]
       | none => []) ]

/-- Shallow embedding of `attestAndLoadSession` (source, lines 56-150) as
the list of dispatches it emits.  `failAt = none` is the successful run;
`failAt = some p` (with `p < 11`) means the `p`-th awaited call rejects:
the try block stops after the segments already emitted and the catch
block dispatches the generic load-state message with progress 0 followed
by `errorAttestation(true)`. -/
def attestAndLoadSession (isAdmin : Bool) (nowMs : Int) (prev : Option PreviousSession)
    (failAt : Option Nat) : List SessionAction :=
  match failAt with
  | none => (attestSegments isAdmin nowMs prev).flatten
  | some p => ((attestSegments isAdmin nowMs prev).take (p + 1)).flatten ++
      [SessionAction.setSessionLoadState uhOhMessage 0, SessionAction.errorAttestation true]

/-- The progress values carried by the load-state dispatches of a trace,
in dispatch order. -/
def loadPercents (trace : List SessionAction) : List Nat :=
  trace.filterMap fun a =>
    match a with
    | SessionAction.setSessionLoadState _ p => some p
    | _ => none

/-- The authentication mechanism (`AuthMechanismType` in the source
models); the claims only distinguish `Unsecured` from everything else. -/
inductive AuthMechanismType where
  | Unsecured
  | Secured
deriving DecidableEq, Repr

/-- Modelled from the spec: the result of the `logoutFromServer` token
service call, whose implementation (`services/sessionApi`) is not part of
the sources; per the spec interface `logout(state) -> \x7blogoutURI?\x7d | null`
it resolves to a response object carrying an optional redirect URI, or to
null on failure — a blacklisting failure therefore surfaces as a null
result, not as a rejection. -/
structure LogoutResponse where
  logoutURI : Option String
deriving DecidableEq, Repr

/-- The authentication configuration fields read by `logout`:
`config.authentication.mechanism` and `config.authentication.logoutUri`
(the latter possibly absent or empty). -/
structure AuthConfig where
  mechanism : AuthMechanismType
  logoutUri : Option String
deriving DecidableEq, Repr

/-- An externally visible step of the logout flow. -/
inductive LogoutStep where
  | logoutFromServer
  | clearCurrentUserToken
  | redirect (uri : String)
  | reload
deriving DecidableEq, Repr

/-- JS truthiness of the `logoutUri` variable: an absent or empty string
is falsy. -/
def uriTruthy : Option String → Bool
  | none => false
  | some s => !(s == "")

/-- The final redirect-or-reload step (source, lines 231-240): go to the
uri when truthy, else force a hard reload. -/
def finalRedirect (uri : Option String) : List LogoutStep :=
  match uri with
  | some s => if s == "" then [LogoutStep.reload] else [LogoutStep.redirect s]
  | none => [LogoutStep.reload]

/-- Shallow embedding of `logout` (source, lines 202-242) as the list of
externally visible steps, given the configuration and the result of the
server-side blacklisting call (which is only made when the mechanism is
not `Unsecured`). -/
def logout (config : AuthConfig) (serverResult : Option LogoutResponse) :
    List LogoutStep :=
  if config.mechanism ≠ AuthMechanismType.Unsecured then
    let uri := match serverResult with
      | some r => r.logoutURI
      | none => config.logoutUri
    [LogoutStep.logoutFromServer, LogoutStep.clearCurrentUserToken] ++ finalRedirect uri
  else
    finalRedirect config.logoutUri

theorem normalizeDTO_eq (nr : NetworkIdentityResponseDTO) :
    normalizeDTO nr = { nr with address := stripTrailingSlash nr.address } := by
  unfold normalizeDTO stripTrailingSlash
  split <;> rfl

theorem normalizeDTO_id (nr : NetworkIdentityResponseDTO) :
    (normalizeDTO nr).id = nr.id := by
  unfold normalizeDTO
  split <;> rfl

theorem pushEntry_isSome (fetch : NetworkIdentityResponseDTO → Except String NetworkIdentity)
    (normalized : List NetworkIdentityResponseDTO) (i : Nat) :
    (pushEntry fetch normalized i).isSome = resolveOk fetch normalized i := by
  unfold pushEntry resolveOk
  cases hn : normalized[i]? with
  | none => rfl
  | some nr =>
    cases hf : fetch nr with
    | error e => simp [hf]
    | ok d => simp [hf]

/-- Every element of the returned responder array other than the home
identity arises from a configuration index whose fetch succeeded; it
carries the normalized configured address, `enabled = true`,
`isHomeNode = false`, and the id `i + 1` where `i` is the index of the node
in the configured array. -/
theorem mem_responders_tail {isIdentified isFederatedOkay : Bool}
    {home : NetworkIdentity} {cfg : List NetworkIdentityResponseDTO}
    {fetch : NetworkIdentityResponseDTO → Except String NetworkIdentity}
    {order : List Nat} {r : NetworkIdentity}
    (hr : r ∈ (getResponderIdentities isIdentified isFederatedOkay home cfg fetch
      order).responders.tail) :
    ∃ i nr d, i ∈ order ∧ i < cfg.length ∧ cfg[i]? = some nr ∧
      fetch (normalizeDTO nr) = Except.ok d ∧
      r = { d with
            address := stripTrailingSlash nr.address,
            enabled := true,
            id := i + 1,
            isHomeNode := false } := by
  unfold getResponderIdentities at hr
  split at hr
  · simp only [List.tail_cons, List.mem_filterMap] at hr
    obtain ⟨i, hi, hp⟩ := hr
    unfold pushEntry at hp
    rw [List.getElem?_map] at hp
    cases hc : cfg[i]? with
    | none => rw [hc] at hp; exact absurd hp (by simp)
    | some nr =>
      rw [hc] at hp
      simp only [Option.map_some'] at hp
      cases hf : fetch (normalizeDTO nr) with
      | error e => rw [hf] at hp; exact absurd hp (by simp)
      | ok d =>
        rw [hf] at hp
        simp only [Option.some.injEq] at hp
        refine ⟨i, nr, d, hi, ?_, hc, hf, ?_⟩
        · exact (List.getElem?_eq_some_iff.mp hc).1
        · rw [← hp, normalizeDTO_eq]
  · simp at hr

theorem pushEntry_some (fetch : NetworkIdentityResponseDTO → Except String NetworkIdentity)
    (normalized : List NetworkIdentityResponseDTO) (i : Nat) (r : NetworkIdentity)
    (h : pushEntry fetch normalized i = some r) :
    r.id = i + 1 ∧ i < normalized.length := by
  unfold pushEntry at h
  cases hn : normalized[i]? with
  | none => rw [hn] at h; simp at h
  | some nr =>
    rw [hn] at h
    dsimp only at h
    cases hf : fetch nr with
    | error e => rw [hf] at h; simp at h
    | ok d =>
      rw [hf] at h
      simp only [Option.some.injEq] at h
      subst h
      exact ⟨rfl, (List.getElem?_eq_some_iff.mp hn).1⟩

theorem pushEntry_map_id (fetch : NetworkIdentityResponseDTO → Except String NetworkIdentity)
    (normalized : List NetworkIdentityResponseDTO) (a b : Nat)
    (h : (pushEntry fetch normalized a).map NetworkIdentity.id = some b) :
    b = a + 1 ∧ a < normalized.length := by
  cases hp : pushEntry fetch normalized a with
  | none => rw [hp] at h; simp at h
  | some r =>
    rw [hp] at h
    simp only [Option.map_some', Option.some.injEq] at h
    obtain ⟨hid, hlt⟩ := pushEntry_some fetch normalized a r hp
    exact ⟨by omega, hlt⟩

theorem length_filterMap_eq_length_filter {α β : Type} (g : α → Option β) (p : α → Bool)
    (hgp : ∀ a, (g a).isSome = p a) (l : List α) :
    (l.filterMap g).length = (l.filter p).length := by
  rw [List.length_filterMap_eq_countP, ← List.countP_eq_length_filter]
  apply List.countP_congr
  intro a _
  rw [hgp]

theorem responders_head (home : NetworkIdentity) (cfg : List NetworkIdentityResponseDTO)
    (fetch : NetworkIdentityResponseDTO → Except String NetworkIdentity)
    (order : List Nat) (isIdentified isFederatedOkay : Bool) :
    (getResponderIdentities isIdentified isFederatedOkay home cfg fetch order).responders.head?
      = some home := by
  unfold getResponderIdentities
  split <;> rfl

theorem responders_tail_eq (home : NetworkIdentity) (cfg : List NetworkIdentityResponseDTO)
    (fetch : NetworkIdentityResponseDTO → Except String NetworkIdentity)
    (order : List Nat) (hne : cfg.isEmpty = false) :
    (getResponderIdentities false true home cfg fetch order).responders.tail
      = order.filterMap (pushEntry fetch (cfg.map normalizeDTO)) := by
  unfold getResponderIdentities
  simp [hne]

theorem responders_length_eq (home : NetworkIdentity) (cfg : List NetworkIdentityResponseDTO)
    (fetch : NetworkIdentityResponseDTO → Except String NetworkIdentity)
    (order : List Nat) :
    (getResponderIdentities false true home cfg fetch order).responders.length
      = 1 + successCount fetch (cfg.map normalizeDTO) order := by
  unfold getResponderIdentities successCount
  cases hne : cfg.isEmpty with
  | true =>
    rw [List.isEmpty_iff] at hne
    subst hne
    simp [resolveOk]
  | false =>
    simp only [hne, Bool.not_false, Bool.not_true, Bool.and_true, Bool.true_and, Bool.and_self,
      if_true, List.length_cons]
    rw [length_filterMap_eq_length_filter (pushEntry fetch (cfg.map normalizeDTO))
      (resolveOk fetch (cfg.map normalizeDTO)) (pushEntry_isSome fetch (cfg.map normalizeDTO))]
    omega

/-- C2: the fan-out is skipped entirely, returning only the home identity,
when the attestation is identified, or federation is disallowed, or there
are no configured partners; in particular the result then has exactly one
identity. -/
theorem fanout_skipped (isIdentified isFederatedOkay : Bool)
    (home : NetworkIdentity) (cfg : List NetworkIdentityResponseDTO)
    (fetch : NetworkIdentityResponseDTO → Except String NetworkIdentity)
    (order : List Nat)
    (h : isIdentified = true ∨ isFederatedOkay = false ∨ cfg = []) :
    (getResponderIdentities isIdentified isFederatedOkay home cfg fetch order).responders
      = [home] ∧
    (getResponderIdentities isIdentified isFederatedOkay home cfg fetch order).errors = [] ∧
    (getResponderIdentities isIdentified isFederatedOkay home cfg fetch order).responders.length
      = 1 := by
  rcases h with h | h | h <;>
    simp [getResponderIdentities, h]

/-- Witness for C2: an identified attestation with three configured
partners still yields exactly the home identity. -/
theorem fanout_skipped_witness :
    (getResponderIdentities true true
        { name := "home", address := "https://home", enabled := true, id := 0,
          isHomeNode := true }
        [⟨7, "https://a"⟩, ⟨8, "https://b"⟩, ⟨9, "https://c"⟩]
        (fun _ => Except.error "unreachable") [0, 1, 2]).responders
      = [{ name := "home", address := "https://home", enabled := true, id := 0,
           isHomeNode := true }] :=
  (fanout_skipped true true _ _ _ _ (Or.inl rfl)).1

/-- C1, counterexample: with two configured partners that both resolve and
completion order `[1, 0]` (the second configured node settles first), the
returned ids in push order are `[0, 2, 1]`.  The first *completed* fan-out
task (completion position 0) receives id 2, not 0 + 1 = 1: ids are not a
function of completion order.  The `id` passed to the push is the `.map`
callback index, i.e. the position in the configured array. -/
theorem responder_id_not_completion_order :
    ((getResponderIdentities false true homeEx cfgEx fetchOkEx [1, 0]).responders.map
        NetworkIdentity.id) = [0, 2, 1] ∧
    ((getResponderIdentities false true homeEx cfgEx fetchOkEx [1, 0]).responders[1]?.map
        NetworkIdentity.id) ≠ some (0 + 1) := by
  constructor
  · rfl
  · decide

/-- C1, amended: each successful partner resolution is appended (in
completion order) with the normalized configured address of the node,
`enabled = true`, `isHomeNode = false`, and an id equal to its position in
the *configured* responder array, offset by 1 to reserve id 0 for home —
i.e. ids are a function of configuration order; only the position of an
entry inside the returned array depends on completion order. -/
theorem responder_entry_shape (isIdentified isFederatedOkay : Bool)
    (home : NetworkIdentity) (cfg : List NetworkIdentityResponseDTO)
    (fetch : NetworkIdentityResponseDTO → Except String NetworkIdentity)
    (order : List Nat) (r : NetworkIdentity)
    (hr : r ∈ (getResponderIdentities isIdentified isFederatedOkay home cfg fetch
      order).responders.tail) :
    r.enabled = true ∧ r.isHomeNode = false ∧
    ∃ i nr d, i ∈ order ∧ cfg[i]? = some nr ∧ fetch (normalizeDTO nr) = Except.ok d ∧
      r.address = stripTrailingSlash nr.address ∧ r.id = i + 1 ∧
      r = { d with
            address := stripTrailingSlash nr.address,
            enabled := true,
            id := i + 1,
            isHomeNode := false } := by
  obtain ⟨i, nr, d, hi, hlt, hc, hf, hrfl⟩ := mem_responders_tail hr
  subst hrfl
  exact ⟨rfl, rfl, i, nr, d, hi, hc, hf, rfl, rfl, rfl⟩

/-- Witness for the amended C1: the first-completed entry of the concrete
run carries `enabled = true`, `isHomeNode = false`, the configured address
and the configuration-position id 2. -/
theorem responder_entry_shape_witness :
    respEntryEx.enabled = true ∧ respEntryEx.isHomeNode = false ∧
    ∃ i nr d, i ∈ [1, 0] ∧ cfgEx[i]? = some nr ∧
      fetchOkEx (normalizeDTO nr) = Except.ok d ∧
      respEntryEx.address = stripTrailingSlash nr.address ∧ respEntryEx.id = i + 1 ∧
      respEntryEx = { d with
                      address := stripTrailingSlash nr.address,
                      enabled := true,
                      id := i + 1,
                      isHomeNode := false } :=
  responder_entry_shape false true homeEx cfgEx fetchOkEx [1, 0] respEntryEx
    (by simp [getResponderIdentities, pushEntry, normalizeDTO, cfgEx, fetchOkEx, homeEx,
      respEntryEx]; decide)

/-- C3: a failing partner resolution is reported through the
`errorResponder` side channel keyed by the configured id of the node, is
omitted from the returned list (no entry carries its id slot), does not
abort the aggregate (the result still begins with home) and does not
reduce the success count: the result length is exactly one more than the
number of successful resolutions. -/
theorem partner_failure_isolated (home : NetworkIdentity)
    (cfg : List NetworkIdentityResponseDTO)
    (fetch : NetworkIdentityResponseDTO → Except String NetworkIdentity)
    (order : List Nat) (i : Nat) (nr : NetworkIdentityResponseDTO) (e : String)
    (hi : i ∈ order) (hc : cfg[i]? = some nr)
    (hf : fetch (normalizeDTO nr) = Except.error e) :
    (nr.id, e) ∈ (getResponderIdentities false true home cfg fetch order).errors ∧
    (∀ r ∈ (getResponderIdentities false true home cfg fetch order).responders.tail,
      r.id ≠ i + 1) ∧
    (getResponderIdentities false true home cfg fetch order).responders.head? = some home ∧
    (getResponderIdentities false true home cfg fetch order).responders.length
      = 1 + successCount fetch (cfg.map normalizeDTO) order := by
  have hne : cfg.isEmpty = false := by
    cases cfg with
    | nil => simp at hc
    | cons a l => rfl
  refine ⟨?_, ?_, responders_head home cfg fetch order false true,
    responders_length_eq home cfg fetch order⟩
  · unfold getResponderIdentities
    simp only [hne, Bool.not_false, Bool.not_true, Bool.and_true, Bool.true_and, Bool.and_self,
      if_true]
    rw [List.mem_filterMap]
    refine ⟨i, hi, ?_⟩
    unfold errEntry
    rw [List.getElem?_map, hc]
    simp only [Option.map_some']
    rw [hf]
    simp [normalizeDTO_id]
  · intro r hr hid
    obtain ⟨j, nr', d, hj, hjlt, hc', hf', hrfl⟩ := mem_responders_tail hr
    have hrid : r.id = j + 1 := by rw [hrfl]
    have hij : j = i := by omega
    subst hij
    rw [hc'] at hc
    cases hc
    rw [hf'] at hf
    cases hf

/-- Witness for C3: in the concrete two-node run where the node with
configured id 10 fails, the error channel carries `(10, "timeout")`, home
is still first, and the length is 1 + 1. -/
theorem partner_failure_isolated_witness :
    ((10 : Nat), "timeout") ∈
      (getResponderIdentities false true homeEx cfgEx fetchMixEx [1, 0]).errors ∧
    (getResponderIdentities false true homeEx cfgEx fetchMixEx [1, 0]).responders.head?
      = some homeEx ∧
    (getResponderIdentities false true homeEx cfgEx fetchMixEx [1, 0]).responders.length
      = 1 + successCount fetchMixEx (cfgEx.map normalizeDTO) [1, 0] := by
  have h := partner_failure_isolated homeEx cfgEx fetchMixEx [1, 0] 0 ⟨10, "https://a"⟩
    "timeout" (by decide) (by decide) (by rfl)
  exact ⟨h.1, h.2.2.1, h.2.2.2⟩

/-- C4: with a de-identified attestation and federation allowed, for any
partner count (including zero) the result has exactly
`1 + successCount` identities; the home identity (id 0 by configuration)
is always first and never dropped; the responder ids are pairwise
distinct and all lie in `[1, N]` where `N` is the configured partner
count. -/
theorem fanout_result_shape (home : NetworkIdentity)
    (cfg : List NetworkIdentityResponseDTO)
    (fetch : NetworkIdentityResponseDTO → Except String NetworkIdentity)
    (order : List Nat) (hhome : home.id = 0)
    (hperm : order.Perm (List.range cfg.length)) :
    (getResponderIdentities false true home cfg fetch order).responders.length
      = 1 + successCount fetch (cfg.map normalizeDTO) order ∧
    (getResponderIdentities false true home cfg fetch order).responders.head? = some home ∧
    ((getResponderIdentities false true home cfg fetch order).responders.map
      NetworkIdentity.id).head? = some 0 ∧
    ((getResponderIdentities false true home cfg fetch order).responders.tail.map
      NetworkIdentity.id).Nodup ∧
    ∀ n ∈ (getResponderIdentities false true home cfg fetch order).responders.tail.map
      NetworkIdentity.id, 1 ≤ n ∧ n ≤ cfg.length := by
  have hnodup : order.Nodup := (hperm.nodup_iff).mpr (List.nodup_range _)
  refine ⟨responders_length_eq home cfg fetch order,
    responders_head home cfg fetch order false true, ?_, ?_, ?_⟩
  · rw [List.head?_map, responders_head home cfg fetch order false true, Option.map_some',
      hhome]
  · cases hne : cfg.isEmpty with
    | true =>
      rw [List.isEmpty_iff] at hne
      subst hne
      simp [getResponderIdentities]
    | false =>
      rw [responders_tail_eq home cfg fetch order hne, List.map_filterMap]
      refine List.Nodup.filterMap ?_ hnodup
      intro a a' b hb hb'
      rw [Option.mem_def] at hb hb'
      have h1 := pushEntry_map_id fetch (cfg.map normalizeDTO) a b hb
      have h2 := pushEntry_map_id fetch (cfg.map normalizeDTO) a' b hb'
      omega
  · intro n hn
    cases hne : cfg.isEmpty with
    | true =>
      rw [List.isEmpty_iff] at hne
      subst hne
      simp [getResponderIdentities] at hn
    | false =>
      rw [responders_tail_eq home cfg fetch order hne, List.map_filterMap,
        List.mem_filterMap] at hn
      obtain ⟨a, _, hsome⟩ := hn
      obtain ⟨hb, hlt⟩ := pushEntry_map_id fetch (cfg.map normalizeDTO) a n hsome
      rw [List.length_map] at hlt
      omega

/-- Witness for C4: the concrete mixed run has length 2 = 1 + 1, home
first with id 0, and the responder ids are distinct. -/
theorem fanout_result_shape_witness :
    (getResponderIdentities false true homeEx cfgEx fetchMixEx [1, 0]).responders.length
      = 1 + successCount fetchMixEx (cfgEx.map normalizeDTO) [1, 0] ∧
    (getResponderIdentities false true homeEx cfgEx fetchMixEx [1, 0]).responders.head?
      = some homeEx ∧
    ((getResponderIdentities false true homeEx cfgEx fetchMixEx [1, 0]).responders.map
      NetworkIdentity.id).head? = some 0 ∧
    ((getResponderIdentities false true homeEx cfgEx fetchMixEx [1, 0]).responders.tail.map
      NetworkIdentity.id).Nodup := by
  have h := fanout_result_shape homeEx cfgEx fetchMixEx [1, 0] (by decide) (by decide)
  exact ⟨h.1, h.2.1, h.2.2.1, h.2.2.2.1⟩

/-- C8: before a responder request is issued the address is normalized by
stripping exactly one trailing slash if present (drop of the final
character exactly when the final character is a slash, identity
otherwise); in particular two configured addresses with the same
normalized form resolve identically. -/
theorem address_normalized (s a b : String) (home : NetworkIdentity)
    (fetch : NetworkIdentityResponseDTO → Except String NetworkIdentity)
    (order : List Nat) (i : Nat)
    (hab : stripTrailingSlash a = stripTrailingSlash b) :
    (endsWithSlash s = true → stripTrailingSlash s = dropLastChar s) ∧
    (endsWithSlash s = false → stripTrailingSlash s = s) ∧
    stripTrailingSlash "https://node.example/" = "https://node.example" ∧
    stripTrailingSlash "https://node.example//" = "https://node.example/" ∧
    getResponderIdentities false true home [⟨i, a⟩] fetch order
      = getResponderIdentities false true home [⟨i, b⟩] fetch order := by
  refine ⟨?_, ?_, by decide, by decide, ?_⟩
  · intro h
    simp [stripTrailingSlash, h]
  · intro h
    simp [stripTrailingSlash, h]
  · have hnorm : normalizeDTO ⟨i, a⟩ = normalizeDTO ⟨i, b⟩ := by
      rw [normalizeDTO_eq, normalizeDTO_eq]
      simp [hab]
    unfold getResponderIdentities
    simp [hnorm]

/-- Witness for C8: the documented pair of addresses resolves to the same
fan-out result for a concrete fetch. -/
theorem address_normalized_witness :
    getResponderIdentities false true homeEx [⟨5, "https://node.example/"⟩] fetchOkEx [0]
      = getResponderIdentities false true homeEx [⟨5, "https://node.example"⟩] fetchOkEx
        [0] :=
  (address_normalized "x/" "https://node.example/" "https://node.example" homeEx fetchOkEx
    [0] 5 (by decide)).2.2.2.2

/-- C7: the display string renders "less than a minute ago" for 0,
"about 1 minute ago" for 1, "about 45 minutes ago" for 45; with no
snapshot nothing is offered; with a snapshot the confirmation modal is
shown with the display string embedded exactly when the elapsed minutes
are under 480, its yes path restores the snapshot state, its no path
dispatches nothing; at 480 minutes or more nothing is offered. -/
theorem session_reload_offer (nowMs : Int) (prev : PreviousSession) :
    diffDisplay 0 = "less than a minute ago" ∧
    diffDisplay 1 = "about 1 minute ago" ∧
    diffDisplay 45 = "about 45 minutes ago" ∧
    handleSessionReload nowMs none = none ∧
    (elapsedMinutes nowMs prev.timestamp < 480 →
      handleSessionReload nowMs (some prev) = some
        { body := "Do you want to resume your previous session (saved "
            ++ diffDisplay (elapsedMinutes nowMs prev.timestamp) ++ ")?",
          header := "Continue previous session",
          onClickNo := [],
          onClickYes := [ReloadDispatch.setCurrentQuery prev.queriesCurrent,
            ReloadDispatch.setPanels prev.panels,
            ReloadDispatch.setPanelFilterActiveStates prev.panelFilters],
          visible := true,
          noButtonText := "No, I\x27ll start fresh",
          yesButtonText := "Yes, load my previous query" }) ∧
    (480 ≤ elapsedMinutes nowMs prev.timestamp →
      handleSessionReload nowMs (some prev) = none) := by
  refine ⟨by decide, by decide, by decide, rfl, ?_, ?_⟩
  · intro h
    unfold handleSessionReload
    dsimp only
    rw [if_pos (show elapsedMinutes nowMs prev.timestamp < 60 * 8 by omega)]
  · intro h
    unfold handleSessionReload
    dsimp only
    rw [if_neg (show ¬ elapsedMinutes nowMs prev.timestamp < 60 * 8 by omega)]

/-- Witness for C7: a snapshot saved 45 minutes before the current clock
produces the offer with "about 45 minutes ago" embedded. -/
theorem session_reload_offer_witness :
    handleSessionReload 2700000 (some ⟨0, "q", "p", "f"⟩) = some
      { body := "Do you want to resume your previous session (saved "
          ++ diffDisplay (elapsedMinutes 2700000 (0 : Int)) ++ ")?",
        header := "Continue previous session",
        onClickNo := [],
        onClickYes := [ReloadDispatch.setCurrentQuery "q", ReloadDispatch.setPanels "p",
          ReloadDispatch.setPanelFilterActiveStates "f"],
        visible := true,
        noButtonText := "No, I\x27ll start fresh",
        yesButtonText := "Yes, load my previous query" } :=
  (session_reload_offer 2700000 ⟨0, "q", "p", "f"⟩).2.2.2.2.1 (by decide)

/-- C10: a snapshot whose timestamp lies strictly in the future of the
current clock still produces the offer (the floored elapsed-minute value
is negative, hence under the 480-minute cutoff) and the embedded display
string is the generic "about N minutes ago" template with a negative N,
not one of the special phrases. -/
theorem session_reload_future_snapshot (nowMs : Int) (prev : PreviousSession)
    (h : nowMs < 1000 * prev.timestamp) :
    elapsedMinutes nowMs prev.timestamp < 0 ∧
    diffDisplay (elapsedMinutes nowMs prev.timestamp)
      = "about " ++ toString (elapsedMinutes nowMs prev.timestamp) ++ " minutes ago" ∧
    handleSessionReload nowMs (some prev) = some
      { body := "Do you want to resume your previous session (saved "
          ++ diffDisplay (elapsedMinutes nowMs prev.timestamp) ++ ")?",
        header := "Continue previous session",
        onClickNo := [],
        onClickYes := [ReloadDispatch.setCurrentQuery prev.queriesCurrent,
          ReloadDispatch.setPanels prev.panels,
          ReloadDispatch.setPanelFilterActiveStates prev.panelFilters],
        visible := true,
        noButtonText := "No, I\x27ll start fresh",
        yesButtonText := "Yes, load my previous query" } := by
  have hneg : elapsedMinutes nowMs prev.timestamp < 0 := by
    unfold elapsedMinutes
    exact Int.fdiv_neg' (by omega) (by omega)
  refine ⟨hneg, ?_, ?_⟩
  · unfold diffDisplay
    rw [if_neg (by omega), if_neg (by omega)]
  · unfold handleSessionReload
    dsimp only
    rw [if_pos (show elapsedMinutes nowMs prev.timestamp < 60 * 8 by omega)]

/-- Witness for C10: a snapshot ten minutes in the future yields the
negative elapsed value and the generic template string. -/
theorem session_reload_future_snapshot_witness :
    elapsedMinutes 0 (600 : Int) < 0 ∧
    diffDisplay (elapsedMinutes 0 (600 : Int))
      = "about " ++ toString (elapsedMinutes 0 (600 : Int)) ++ " minutes ago" := by
  have h := session_reload_future_snapshot 0 ⟨600, "q", "p", "f"⟩ (by decide)
  exact ⟨h.1, h.2.1⟩

/-- C5: along the successful run the dispatched progress values are
monotonically non-decreasing and end at 100, and 0 is never dispatched;
on any stage failure the last dispatched progress value is the terminal
error marker 0. -/
theorem progress_monotone (isAdmin : Bool) (nowMs : Int) (prev : Option PreviousSession) :
    List.Chain' (fun a b => a ≤ b)
      (loadPercents (attestAndLoadSession isAdmin nowMs prev none)) ∧
    (loadPercents (attestAndLoadSession isAdmin nowMs prev none)).getLast? = some 100 ∧
    0 ∉ loadPercents (attestAndLoadSession isAdmin nowMs prev none) ∧
    ∀ p, p < 11 →
      (loadPercents (attestAndLoadSession isAdmin nowMs prev (some p))).getLast?
        = some 0 := by
  have hsucc : loadPercents (attestAndLoadSession isAdmin nowMs prev none)
      = [5, 10, 20, 30, 40, 50, 60, 70, 80, 100] := by
    unfold attestAndLoadSession attestSegments
    cases hm : handleSessionReload nowMs prev <;> cases isAdmin <;> rfl
  refine ⟨?_, ?_, ?_, ?_⟩
  · rw [hsucc]
    norm_num [List.chain'_cons]
  · rw [hsucc]
    rfl
  · rw [hsucc]
    decide
  · intro p hp
    unfold attestAndLoadSession attestSegments
    cases hm : handleSessionReload nowMs prev <;> cases isAdmin <;>
      interval_cases p <;> rfl

/-- Witness for C5: the failure of the fourth awaited call yields a trace
whose final progress value is 0. -/
theorem progress_monotone_witness :
    (loadPercents (attestAndLoadSession false 0 none (some 3))).getLast? = some 0 :=
  (progress_monotone false 0 none).2.2.2 3 (by omega)

/-- C6: a failure of the `p`-th awaited call leaves the trace equal to a
prefix of the successful trace (the segments already emitted, which are
neither rolled back nor retried) followed exactly by the generic
operator-contact load state with progress 0 and `errorAttestation(true)`;
the remaining stages are aborted (`completeAttestation` is never
dispatched), the failure is not silently dropped (`errorAttestation true`
is dispatched) and it is the final dispatch. -/
theorem stage_failure_aborts (isAdmin : Bool) (nowMs : Int) (prev : Option PreviousSession)
    (p : Nat) (hp : p < 11) :
    (∃ pre rest,
      pre ++ rest = attestAndLoadSession isAdmin nowMs prev none ∧
      attestAndLoadSession isAdmin nowMs prev (some p)
        = pre ++ [SessionAction.setSessionLoadState uhOhMessage 0,
            SessionAction.errorAttestation true]) ∧
    SessionAction.completeAttestation ∉ attestAndLoadSession isAdmin nowMs prev (some p) ∧
    SessionAction.errorAttestation true ∈ attestAndLoadSession isAdmin nowMs prev (some p) ∧
    (attestAndLoadSession isAdmin nowMs prev (some p)).getLast?
      = some (SessionAction.errorAttestation true) := by
  refine ⟨⟨((attestSegments isAdmin nowMs prev).take (p + 1)).flatten,
      ((attestSegments isAdmin nowMs prev).drop (p + 1)).flatten, ?_, rfl⟩, ?_, ?_, ?_⟩
  · rw [← List.flatten_append, List.take_append_drop]
    rfl
  · interval_cases p <;> cases isAdmin <;>
      simp [attestAndLoadSession, attestSegments]
  · simp [attestAndLoadSession]
  · simp [attestAndLoadSession]

/-- Witness for C6: the failure of the fourth awaited call dispatches
`errorAttestation(true)` last and never dispatches
`completeAttestation`. -/
theorem stage_failure_aborts_witness :
    SessionAction.completeAttestation ∉ attestAndLoadSession false 0 none (some 3) ∧
    SessionAction.errorAttestation true ∈ attestAndLoadSession false 0 none (some 3) ∧
    (attestAndLoadSession false 0 none (some 3)).getLast?
      = some (SessionAction.errorAttestation true) := by
  have h := stage_failure_aborts false 0 none 3 (by omega)
  exact ⟨h.2.1, h.2.2.1, h.2.2.2⟩

/-- C9: with a non-unsecured mechanism, a failing server-side
blacklisting call (null result) does not block local cleanup or the
redirect: `clearCurrentUserToken` is still invoked and the flow still
ends in a redirect or a hard reload. -/
theorem logout_blacklist_failure_tolerated (config : AuthConfig)
    (h : config.mechanism ≠ AuthMechanismType.Unsecured) :
    LogoutStep.clearCurrentUserToken ∈ logout config none ∧
    ((∃ u, (logout config none).getLast? = some (LogoutStep.redirect u)) ∨
      (logout config none).getLast? = some LogoutStep.reload) := by
  unfold logout
  rw [if_pos h]
  constructor
  · simp
  · cases hu : config.logoutUri with
    | none => right; rfl
    | some s =>
      cases hs : (s == "") with
      | true => right; simp [finalRedirect, hu, hs]
      | false => left; exact ⟨s, by simp [finalRedirect, hu, hs]⟩

/-- Witness for C9: a secured configuration with a configured logout uri
still clears the token and redirects when blacklisting fails. -/
theorem logout_blacklist_failure_tolerated_witness :
    LogoutStep.clearCurrentUserToken
      ∈ logout ⟨AuthMechanismType.Secured, some "https://idp/logout"⟩ none ∧
    ((∃ u, (logout ⟨AuthMechanismType.Secured, some "https://idp/logout"⟩ none).getLast?
        = some (LogoutStep.redirect u)) ∨
      (logout ⟨AuthMechanismType.Secured, some "https://idp/logout"⟩ none).getLast?
        = some LogoutStep.reload) :=
  logout_blacklist_failure_tolerated ⟨AuthMechanismType.Secured, some "https://idp/logout"⟩
    (by decide)
